import Mathlib

/-!
Shallow embedding of the Value-Based Care Quality Suite HTTP query layer
(src/api/main.py) and proofs of its specified properties.

The storage engine is modelled as a `DBState`: each of the three backing
measure relations is `none` when any query against it fails (connection
error, missing relation) and `some rows` when queries against it succeed
and see exactly `rows`.  SQL aggregates (`SUM`), the zero-denominator
`CASE` guard, `ROUND(x, 2)`, `ORDER BY full_name`, `WHERE patient_id =
:patient_id` with `fetchone`, and the Python `row[i] or default`
null-coalescing are each translated below at their use sites.
-/

/-- Row of one of the three `quality_measures.*` backing relations:
the shared columns `patient_id, mrn, full_name, age_years, denominator,
numerator, measurement_date` plus the two measure-specific extra columns
(for the diabetes relation `most_recent_a1c, most_recent_a1c_date`; for
the screening relation `last_screening_date, screening_count`), carried
opaquely as `extra1, extra2`. -/
structure Row where
  patient_id : String
  mrn : String
  full_name : String
  age_years : Int
  denominator : Int
  numerator : Int
  measurement_date : Int
  extra1 : String
  extra2 : String
deriving DecidableEq, Repr

/-- Pydantic model `QualityMeasure` of src/api/main.py. -/
structure QualityMeasure where
  measure_id : String
  measure_name : String
  denominator : Int
  numerator : Int
  rate : Rat
  measurement_date : Int
deriving DecidableEq, Repr

/-- Pydantic model `PatientMeasure` of src/api/main.py. -/
structure PatientMeasure where
  patient_id : String
  mrn : String
  full_name : String
  age_years : Int
  denominator : Int
  numerator : Int
  measurement_date : Int
deriving DecidableEq, Repr

/-- Pydantic model `MeasureSummary` of src/api/main.py. -/
structure MeasureSummary where
  measure_id : String
  measure_name : String
  total_denominator : Int
  total_numerator : Int
  overall_rate : Rat
  patient_details : List PatientMeasure
deriving DecidableEq, Repr

/-- One entry of the `measures` list built by `get_patient_measures`:
a dict with `measure_id, measure_name, denominator, numerator` and a
measure-specific `additional_info` dict, modelled as key-value pairs. -/
structure PatientMeasureEntry where
  measure_id : String
  measure_name : String
  denominator : Int
  numerator : Int
  additional_info : List (String × String)
deriving DecidableEq, Repr

/-- Body `{patient_id, measures}` returned by `get_patient_measures`. -/
structure PatientMeasuresResponse where
  patient_id : String
  measures : List PatientMeasureEntry
deriving DecidableEq, Repr

/-- Body `{message, status}` returned by `refresh_measures`. -/
structure RefreshResponse where
  message : String
  status : String
deriving DecidableEq, Repr

/-- Outcome of a FastAPI handler: a 200 response with a typed body, or a
raised `HTTPException(status_code, detail)`. -/
inductive ApiResult (α : Type) where
  | ok (body : α)
  | error (status : Nat) (detail : String)
deriving DecidableEq, Repr

/-- State of the storage engine seen by one request: each backing
relation is `none` when queries against it fail, `some rows` otherwise;
`today` is the value of `CURRENT_DATE`. -/
structure DBState where
  a1c : Option (List Row)
  bcs : Option (List Row)
  psi : Option (List Row)
  today : Int
deriving DecidableEq, Repr

/-- SQL `ROUND(x, 2)`: round to two decimal places (half away from zero
on the nonnegative rates produced here). -/
def sqlRound2 (q : Rat) : Rat := ((q * 100 + 1 / 2).floor : Rat) / 100

/-- SQL `SUM(denominator)` over a relation: `NULL` (here `none`) on an
empty relation, otherwise the sum of the column. -/
def sumDen (rows : List Row) : Option Int :=
  match rows with
  | [] => none
  | _ => some ((rows.map Row.denominator).sum)

/-- SQL `SUM(numerator)` over a relation, `NULL` on an empty relation. -/
def sumNum (rows : List Row) : Option Int :=
  match rows with
  | [] => none
  | _ => some ((rows.map Row.numerator).sum)

/-- The `CASE WHEN SUM(denominator) > 0 THEN ROUND((SUM(numerator)::float
/ SUM(denominator)) * 100, 2) ELSE 0 END` rate column: a `NULL` sum fails
the `> 0` test, selecting the `ELSE 0` branch. -/
def aggRate (num den : Option Int) : Rat :=
  match den, num with
  | some d, some n => if 0 < d then sqlRound2 ((n : Rat) / (d : Rat) * 100) else 0
  | _, _ => 0

/-- One iteration of the per-measure sweep in `get_quality_measures`:
the aggregate query always yields one row (of `NULL`s on an empty
relation), the truthy-row check passes, and the `QualityMeasure` is built
with `row[2] or 0`, `row[3] or 0`, `row[4] or 0.0` null-coalescing. -/
def measureFromAgg (mid mname : String) (today : Int) (rows : List Row) : QualityMeasure :=
  { measure_id := mid
    measure_name := mname
    denominator := (sumDen rows).getD 0
    numerator := (sumNum rows).getD 0
    rate := aggRate (sumNum rows) (sumDen rows)
    measurement_date := today }

/-- Body of `get_quality_measures`: three independent try blocks, one per
catalog measure in declaration order; a failing relation is caught,
logged and skipped, a succeeding one always appends its measure. -/
def measuresList (db : DBState) : List QualityMeasure :=
  (match db.a1c with
   | some rows => [measureFromAgg "HEDIS-DM-A1C" "Diabetes Care - Hemoglobin A1c" db.today rows]
   | none => []) ++
  (match db.bcs with
   | some rows => [measureFromAgg "HEDIS-BCS" "Breast Cancer Screening" db.today rows]
   | none => []) ++
  (match db.psi with
   | some rows => [measureFromAgg "HVBP-PSI-04" "Death among surgical inpatients" db.today rows]
   | none => [])

/-- Handler `GET /measures` (`get_quality_measures` in src/api/main.py):
all exceptions are swallowed per measure, so it always returns 200. -/
def get_quality_measures (db : DBState) : ApiResult (List QualityMeasure) :=
  .ok (measuresList db)

/-- The if/elif measure catalog of `get_measure_details`: measure id to
(backing relation name, display name); exact, case-sensitive match. -/
def catalogLookup (measure_id : String) : Option (String × String) :=
  if measure_id = "HEDIS-DM-A1C" then
    some ("quality_measures.hedis_diabetes_care_hemoglobin_a1c", "Diabetes Care - Hemoglobin A1c")
  else if measure_id = "HEDIS-BCS" then
    some ("quality_measures.hedis_breast_cancer_screening", "Breast Cancer Screening")
  else if measure_id = "HVBP-PSI-04" then
    some ("quality_measures.hvbp_patient_safety_indicator", "Death among surgical inpatients")
  else
    none

/-- Resolve a backing relation name against the storage state. -/
def relationOf (db : DBState) (table_name : String) : Option (List Row) :=
  if table_name = "quality_measures.hedis_diabetes_care_hemoglobin_a1c" then db.a1c
  else if table_name = "quality_measures.hedis_breast_cancer_screening" then db.bcs
  else if table_name = "quality_measures.hvbp_patient_safety_indicator" then db.psi
  else none

/-- The `ORDER BY full_name` comparison (ascending lexicographic). -/
def nameLe (a b : Row) : Prop := a.full_name ≤ b.full_name

instance : DecidableRel nameLe := fun _ _ => inferInstanceAs (Decidable (_ ≤ _))

instance : IsTotal Row nameLe := ⟨fun a b => le_total a.full_name b.full_name⟩

instance : IsTrans Row nameLe := ⟨fun _ _ _ h h2 => le_trans h h2⟩

/-- Row-to-`PatientMeasure` mapping of the details query projection. -/
def toPatientMeasure (r : Row) : PatientMeasure :=
  { patient_id := r.patient_id
    mrn := r.mrn
    full_name := r.full_name
    age_years := r.age_years
    denominator := r.denominator
    numerator := r.numerator
    measurement_date := r.measurement_date }

/-- Handler `GET /measures/{measure_id}` (`get_measure_details`): 404 on
an unknown id before any query; otherwise a summary query with
`or 0` / `or 0.0` null-coalescing and a detail query ordered by
`full_name`; any query failure is caught and re-raised as a 500. -/
def get_measure_details (db : DBState) (measure_id : String) : ApiResult MeasureSummary :=
  match catalogLookup measure_id with
  | none => .error 404 "Measure not found"
  | some (table_name, measure_name) =>
    match relationOf db table_name with
    | none => .error 500 "Internal server error"
    | some rows =>
      .ok { measure_id := measure_id
            measure_name := measure_name
            total_denominator := (sumDen rows).getD 0
            total_numerator := (sumNum rows).getD 0
            overall_rate := aggRate (sumNum rows) (sumDen rows)
            patient_details := (List.insertionSort nameLe rows).map toPatientMeasure }

/-- Handler `POST /measures/refresh` (`refresh_measures`): logs intent
and acknowledges; issues no storage query, so the storage state is
returned unchanged. -/
def refresh_measures (db : DBState) : ApiResult RefreshResponse × DBState :=
  (.ok { message := "Quality measures refresh initiated", status := "success" }, db)

/-- The `fetchone` of a `WHERE patient_id = :patient_id` query: the first
row of the relation matching the bound parameter, if any. -/
def findPatientRow (rows : List Row) (patient_id : String) : Option Row :=
  rows.find? (fun r => r.patient_id == patient_id)

/-- Entry appended for a matching diabetes row, with its
measure-specific `additional_info`. -/
def a1cEntry (r : Row) : PatientMeasureEntry :=
  { measure_id := "HEDIS-DM-A1C"
    measure_name := "Diabetes Care - Hemoglobin A1c"
    denominator := r.denominator
    numerator := r.numerator
    additional_info := [("most_recent_a1c", r.extra1),
                        ("most_recent_a1c_date", r.extra2)] }

/-- Entry appended for a matching screening row, with its
measure-specific `additional_info`. -/
def bcsEntry (r : Row) : PatientMeasureEntry :=
  { measure_id := "HEDIS-BCS"
    measure_name := "Breast Cancer Screening"
    denominator := r.denominator
    numerator := r.numerator
    additional_info := [("last_screening_date", r.extra1),
                        ("screening_count", r.extra2)] }

/-- Handler `GET /patients/{patient_id}/measures`
(`get_patient_measures`): a single try block runs the diabetes query then
the screening query; a matching row appends an entry with its
measure-specific `additional_info`; any exception in either query is
caught and re-raised as a 500.  The surgical-mortality relation is never
queried. -/
def get_patient_measures (db : DBState) (patient_id : String) :
    ApiResult PatientMeasuresResponse :=
  match db.a1c with
  | none => .error 500 "Internal server error"
  | some l1 =>
    let m1 : List PatientMeasureEntry :=
      match findPatientRow l1 patient_id with
      | some r => [a1cEntry r]
      | none => []
    match db.bcs with
    | none => .error 500 "Internal server error"
    | some l2 =>
      let m2 : List PatientMeasureEntry :=
        match findPatientRow l2 patient_id with
        | some r => [bcsEntry r]
        | none => []
      .ok { patient_id := patient_id, measures := m1 ++ m2 }

/-! ### Helper lemmas and concrete storage states -/

lemma sum_map_nonneg {α : Type} (l : List α) (f : α → Int)
    (h : ∀ r ∈ l, 0 ≤ f r) : 0 ≤ (l.map f).sum := by
  induction l with
  | nil => simp
  | cons a t ih =>
    simp only [List.map_cons, List.sum_cons]
    have ha := h a (List.mem_cons_self a t)
    have ht := ih (fun r hr => h r (List.mem_cons_of_mem a hr))
    omega

lemma sum_map_le {α : Type} (l : List α) (f g : α → Int)
    (h : ∀ r ∈ l, f r ≤ g r) : (l.map f).sum ≤ (l.map g).sum := by
  induction l with
  | nil => simp
  | cons a t ih =>
    simp only [List.map_cons, List.sum_cons]
    have ha := h a (List.mem_cons_self a t)
    have ht := ih (fun r hr => h r (List.mem_cons_of_mem a hr))
    omega

/-- Per-row data-quality invariant of a backing relation, from the data
model: counts are nonnegative and `numerator ≤ denominator`. -/
def rowsInv (l : List Row) : Prop :=
  ∀ r ∈ l, 0 ≤ r.numerator ∧ r.numerator ≤ r.denominator

instance (l : List Row) : Decidable (rowsInv l) :=
  inferInstanceAs (Decidable (∀ r ∈ l, _ ∧ _))

/-- The data-quality invariant on every relation the engine serves. -/
def dbInv (db : DBState) : Prop :=
  rowsInv (db.a1c.getD []) ∧ rowsInv (db.bcs.getD []) ∧ rowsInv (db.psi.getD [])

instance (db : DBState) : Decidable (dbInv db) :=
  inferInstanceAs (Decidable (_ ∧ _ ∧ _))

/-- Sample relation row for a patient named Alice. -/
def rowAlice : Row :=
  { patient_id := "P1", mrn := "MRN1", full_name := "Alice Adams", age_years := 50,
    denominator := 1, numerator := 0, measurement_date := 0,
    extra1 := "7.2", extra2 := "2024-01-15" }

/-- Sample relation row for a patient named Bob. -/
def rowBob : Row :=
  { patient_id := "P2", mrn := "MRN2", full_name := "Bob Brown", age_years := 61,
    denominator := 1, numerator := 1, measurement_date := 0,
    extra1 := "8.4", extra2 := "2024-02-20" }

/-- Storage state where every relation exists and is empty. -/
def dbAllEmpty : DBState := { a1c := some [], bcs := some [], psi := some [], today := 0 }

/-- Storage state with two diabetes rows listed in non-alphabetical order. -/
def dbSample : DBState :=
  { a1c := some [rowBob, rowAlice], bcs := some [], psi := some [], today := 0 }

/-- Storage state where queries against the diabetes relation fail while
the screening relation holds a row for patient `P1`. -/
def dbA1cFail : DBState :=
  { a1c := none, bcs := some [rowAlice], psi := some [], today := 0 }

/-- Storage state where queries against the screening relation fail. -/
def dbBcsFail : DBState := { a1c := some [], bcs := none, psi := none, today := 0 }

/-! ### Claims -/

/-- C1, counterexample: patient `P1` has a row in the screening relation,
and the query against the diabetes relation fails.  The claim says the
failed measure is silently omitted and the endpoint still returns 200;
the code instead surfaces HTTP 500 with detail
`Internal server error`. -/
theorem get_patient_measures_failure_is_500_counterexample :
    get_patient_measures dbA1cFail "P1" = .error 500 "Internal server error" := rfl

/-- C1, amended: a storage-engine query failure during the per-patient
sweep of `get_patient_measures` is surfaced as HTTP 500 with body detail
`Internal server error`; the operation does not return 200.  Only
measures whose query succeeds with no matching row are silently
omitted. -/
theorem get_patient_measures_failure_surfaces_500 (db : DBState) (patient_id : String)
    (h : db.a1c = none ∨ db.bcs = none) :
    get_patient_measures db patient_id = .error 500 "Internal server error" := by
  rcases h with h | h
  · simp [get_patient_measures, h]
  · cases ha : db.a1c with
    | none => simp [get_patient_measures, ha]
    | some l1 => simp [get_patient_measures, ha, h]

/-- C1 amended, witness: the screening relation fails on a state whose
diabetes relation is fine, and the endpoint returns 500. -/
theorem get_patient_measures_failure_surfaces_500_witness :
    get_patient_measures dbBcsFail "P1" = .error 500 "Internal server error" :=
  get_patient_measures_failure_surfaces_500 dbBcsFail "P1" (Or.inr rfl)

/-- C4: for every `measure_id` outside the catalog set, the details
endpoint fails with 404 and body detail `Measure not found`, for every
storage state (so no storage query is executed); lookup is exact-match
and case-sensitive. -/
theorem get_measure_details_unknown_404 (db : DBState) (measure_id : String)
    (h : measure_id ∉ ["HEDIS-DM-A1C", "HEDIS-BCS", "HVBP-PSI-04"]) :
    get_measure_details db measure_id = .error 404 "Measure not found" := by
  simp only [List.mem_cons, List.not_mem_nil, or_false, not_or] at h
  obtain ⟨h1, h2, h3⟩ := h
  simp [get_measure_details, catalogLookup, h1, h2, h3]

/-- C4, witness: the lower-cased id of a catalog measure is unknown
(case-sensitivity), independent of the storage state. -/
theorem get_measure_details_unknown_404_witness :
    get_measure_details dbAllEmpty "hedis-dm-a1c" = .error 404 "Measure not found" :=
  get_measure_details_unknown_404 dbAllEmpty "hedis-dm-a1c" (by decide)

/-- C5: a known measure whose backing relation is empty yields 200 with
zero totals, zero rate and no patient details. -/
theorem get_measure_details_empty_relation
    (db : DBState) (measure_id table_name measure_name : String)
    (hc : catalogLookup measure_id = some (table_name, measure_name))
    (he : relationOf db table_name = some []) :
    get_measure_details db measure_id =
      .ok { measure_id := measure_id, measure_name := measure_name,
            total_denominator := 0, total_numerator := 0,
            overall_rate := 0, patient_details := [] } := by
  simp [get_measure_details, hc, he, sumDen, sumNum, aggRate]

/-- C5, witness: the diabetes measure over an empty backing relation. -/
theorem get_measure_details_empty_relation_witness :
    get_measure_details dbAllEmpty "HEDIS-DM-A1C" =
      .ok { measure_id := "HEDIS-DM-A1C",
            measure_name := "Diabetes Care - Hemoglobin A1c",
            total_denominator := 0, total_numerator := 0,
            overall_rate := 0, patient_details := [] } :=
  get_measure_details_empty_relation dbAllEmpty "HEDIS-DM-A1C"
    "quality_measures.hedis_diabetes_care_hemoglobin_a1c"
    "Diabetes Care - Hemoglobin A1c" rfl rfl

/-- C8: the refresh endpoint always acknowledges with
`status = "success"`, leaves the storage state unchanged, every read
endpoint observes the same values after it as before, and it is
idempotent. -/
theorem refresh_measures_no_mutation (db : DBState) :
    refresh_measures db =
      (.ok { message := "Quality measures refresh initiated", status := "success" }, db) ∧
    get_quality_measures (refresh_measures db).2 = get_quality_measures db ∧
    (∀ mid, get_measure_details (refresh_measures db).2 mid = get_measure_details db mid) ∧
    (∀ pid, get_patient_measures (refresh_measures db).2 pid = get_patient_measures db pid) ∧
    refresh_measures (refresh_measures db).2 = refresh_measures db :=
  ⟨rfl, rfl, fun _ => rfl, fun _ => rfl, rfl⟩

/-- C7: for a patient id with no matching row in the diabetes or the
screening relation, the endpoint returns 200 with the patient id echoed
unchanged and an empty measures list; and (for every state and id) the
endpoint never produces a 404. -/
theorem get_patient_measures_no_match_200 (db : DBState) (patient_id : String)
    (l1 l2 : List Row)
    (h1 : db.a1c = some l1) (h2 : db.bcs = some l2)
    (hm1 : findPatientRow l1 patient_id = none)
    (hm2 : findPatientRow l2 patient_id = none) :
    get_patient_measures db patient_id =
      .ok { patient_id := patient_id, measures := [] } ∧
    ∀ (db2 : DBState) (pid d : String),
      get_patient_measures db2 pid ≠ .error 404 d := by
  constructor
  · simp [get_patient_measures, h1, h2, hm1, hm2]
  · intro db2 pid d
    unfold get_patient_measures
    cases db2.a1c with
    | none => simp
    | some m1 =>
      cases db2.bcs with
      | none => simp
      | some m2 => simp

/-- C7, witness: an unknown patient id against the sample state yields
200 with an empty list, and a concrete 404 is impossible. -/
theorem get_patient_measures_no_match_200_witness :
    get_patient_measures dbSample "NOBODY" =
      .ok { patient_id := "NOBODY", measures := [] } ∧
    get_patient_measures dbAllEmpty "P1" ≠ .error 404 "x" :=
  ⟨(get_patient_measures_no_match_200 dbSample "NOBODY" [rowBob, rowAlice] []
      rfl rfl (by decide) rfl).1,
   (get_patient_measures_no_match_200 dbSample "NOBODY" [rowBob, rowAlice] []
      rfl rfl (by decide) rfl).2 dbAllEmpty "P1" "x"⟩

/-- C10: when both swept relations answer, the endpoint returns 200 with
at most two entries, their measure ids are a subsequence of
`[HEDIS-DM-A1C, HEDIS-BCS]` (at most one entry per measure, never the
surgical-mortality measure), and the response is independent of the
surgical-mortality relation, which is never queried. -/
theorem get_patient_measures_at_most_two (db : DBState) (patient_id : String)
    (l1 l2 : List Row) (h1 : db.a1c = some l1) (h2 : db.bcs = some l2) :
    (∃ ms, get_patient_measures db patient_id =
        .ok { patient_id := patient_id, measures := ms } ∧
      ms.length ≤ 2 ∧
      (ms.map PatientMeasureEntry.measure_id).Sublist ["HEDIS-DM-A1C", "HEDIS-BCS"]) ∧
    ∀ psi2, get_patient_measures { db with psi := psi2 } patient_id =
      get_patient_measures db patient_id := by
  refine ⟨?_, fun psi2 => rfl⟩
  cases hf1 : findPatientRow l1 patient_id with
  | none =>
    cases hf2 : findPatientRow l2 patient_id with
    | none =>
      exact ⟨[], by simp [get_patient_measures, h1, h2, hf1, hf2], by simp, by simp⟩
    | some r =>
      refine ⟨[bcsEntry r], by simp [get_patient_measures, h1, h2, hf1, hf2],
        by simp, ?_⟩
      simp only [List.map_cons, List.map_nil, a1cEntry, bcsEntry]
      exact ((List.nil_sublist _).cons₂ _).cons _
  | some r =>
    cases hf2 : findPatientRow l2 patient_id with
    | none =>
      refine ⟨[a1cEntry r], by simp [get_patient_measures, h1, h2, hf1, hf2],
        by simp, ?_⟩
      simp only [List.map_cons, List.map_nil, a1cEntry, bcsEntry]
      exact ((List.nil_sublist _).cons _).cons₂ _
    | some r2 =>
      refine ⟨[a1cEntry r, bcsEntry r2], by simp [get_patient_measures, h1, h2, hf1, hf2],
        by simp, ?_⟩
      simp only [List.map_cons, List.map_nil, a1cEntry, bcsEntry]
      exact ((List.nil_sublist _).cons₂ _).cons₂ _

/-- C10, witness: patient `P1` is present only in the screening relation
of `dbA1cFlipped`, so exactly the screening entry is returned, and
replacing the surgical-mortality relation does not change the answer. -/
theorem get_patient_measures_at_most_two_witness :
    (∃ ms, get_patient_measures dbSample "P2" =
        .ok { patient_id := "P2", measures := ms } ∧
      ms.length ≤ 2 ∧
      (ms.map PatientMeasureEntry.measure_id).Sublist ["HEDIS-DM-A1C", "HEDIS-BCS"]) ∧
    ∀ psi2, get_patient_measures { dbSample with psi := psi2 } "P2" =
      get_patient_measures dbSample "P2" :=
  get_patient_measures_at_most_two dbSample "P2" [rowBob, rowAlice] [] rfl rfl

/-- C3: the aggregate listing never raises: for every storage state it
returns 200 with a list whose measure ids are a subsequence of the
catalog declaration order `[HEDIS-DM-A1C, HEDIS-BCS, HVBP-PSI-04]` and
whose length is at most 3; each measure is present exactly when its own
relation answers, independent of the others. -/
theorem get_quality_measures_never_errors (db : DBState) :
    ∃ ms, get_quality_measures db = .ok ms ∧
      (ms.map QualityMeasure.measure_id).Sublist
        ["HEDIS-DM-A1C", "HEDIS-BCS", "HVBP-PSI-04"] ∧
      ms.length ≤ 3 ∧
      (("HEDIS-DM-A1C" ∈ ms.map QualityMeasure.measure_id) ↔ db.a1c.isSome) ∧
      (("HEDIS-BCS" ∈ ms.map QualityMeasure.measure_id) ↔ db.bcs.isSome) ∧
      (("HVBP-PSI-04" ∈ ms.map QualityMeasure.measure_id) ↔ db.psi.isSome) := by
  refine ⟨measuresList db, rfl, ?_⟩
  obtain ⟨a, b, c, t⟩ := db
  cases a <;> cases b <;> cases c <;>
    simp [measuresList, measureFromAgg]

/-- Invariant transfer: a measure aggregated from rows satisfying the
per-row invariant has nonnegative numerator bounded by its denominator,
and its rate is the guarded rounded ratio of its own fields. -/
lemma measureFromAgg_inv (mid mname : String) (today : Int) (rows : List Row)
    (hrows : rowsInv rows) :
    (0 ≤ (measureFromAgg mid mname today rows).numerator ∧
      (measureFromAgg mid mname today rows).numerator ≤
        (measureFromAgg mid mname today rows).denominator) ∧
    (measureFromAgg mid mname today rows).rate =
      (if 0 < (measureFromAgg mid mname today rows).denominator then
        sqlRound2 (((measureFromAgg mid mname today rows).numerator : Rat) /
          ((measureFromAgg mid mname today rows).denominator : Rat) * 100)
      else 0) := by
  cases rows with
  | nil => simp [measureFromAgg, sumDen, sumNum, aggRate]
  | cons a t =>
    have hnum : 0 ≤ ((a :: t).map Row.numerator).sum :=
      sum_map_nonneg _ _ (fun r hr => (hrows r hr).1)
    have hle : ((a :: t).map Row.numerator).sum ≤ ((a :: t).map Row.denominator).sum :=
      sum_map_le _ _ _ (fun r hr => (hrows r hr).2)
    refine ⟨⟨?_, ?_⟩, ?_⟩
    · simpa [measureFromAgg, sumNum] using hnum
    · simpa [measureFromAgg, sumNum, sumDen] using hle
    · simp [measureFromAgg, sumNum, sumDen, aggRate]

/-- C2: under the data-model invariant on the backing relations, every
measure returned by the aggregate listing satisfies
`0 ≤ numerator ≤ denominator`, and its rate is the rounded percentage
when the denominator is positive and `0` otherwise. -/
theorem get_quality_measures_rate_invariant (db : DBState) (ms : List QualityMeasure)
    (hinv : dbInv db) (h : get_quality_measures db = .ok ms) :
    ∀ m ∈ ms, (0 ≤ m.numerator ∧ m.numerator ≤ m.denominator) ∧
      m.rate = (if 0 < m.denominator then
        sqlRound2 ((m.numerator : Rat) / (m.denominator : Rat) * 100) else 0) := by
  have hms : measuresList db = ms := by
    simpa [get_quality_measures] using h
  subst hms
  intro m hm
  obtain ⟨a, b, c, t⟩ := db
  obtain ⟨i1, i2, i3⟩ := hinv
  simp only [measuresList] at hm
  rcases List.mem_append.1 hm with hm12 | hm3
  · rcases List.mem_append.1 hm12 with hm1 | hm2
    · cases a with
      | none => simp at hm1
      | some l =>
        simp only [List.mem_singleton] at hm1
        subst hm1
        exact measureFromAgg_inv _ _ _ _ (by simpa using i1)
    · cases b with
      | none => simp at hm2
      | some l =>
        simp only [List.mem_singleton] at hm2
        subst hm2
        exact measureFromAgg_inv _ _ _ _ (by simpa using i2)
  · cases c with
    | none => simp at hm3
    | some l =>
      simp only [List.mem_singleton] at hm3
      subst hm3
      exact measureFromAgg_inv _ _ _ _ (by simpa using i3)

/-- C2, witness: the diabetes measure over the two sample rows has
numerator 1, denominator 2 and rate `round(50, 2) = 50`. -/
theorem get_quality_measures_rate_invariant_witness :
    (0 ≤ (measureFromAgg "HEDIS-DM-A1C" "Diabetes Care - Hemoglobin A1c" 0
        [rowBob, rowAlice]).numerator ∧
      (measureFromAgg "HEDIS-DM-A1C" "Diabetes Care - Hemoglobin A1c" 0
        [rowBob, rowAlice]).numerator ≤
      (measureFromAgg "HEDIS-DM-A1C" "Diabetes Care - Hemoglobin A1c" 0
        [rowBob, rowAlice]).denominator) ∧
    (measureFromAgg "HEDIS-DM-A1C" "Diabetes Care - Hemoglobin A1c" 0
        [rowBob, rowAlice]).rate =
      (if 0 < (measureFromAgg "HEDIS-DM-A1C" "Diabetes Care - Hemoglobin A1c" 0
          [rowBob, rowAlice]).denominator then
        sqlRound2 (((measureFromAgg "HEDIS-DM-A1C" "Diabetes Care - Hemoglobin A1c" 0
          [rowBob, rowAlice]).numerator : Rat) /
          ((measureFromAgg "HEDIS-DM-A1C" "Diabetes Care - Hemoglobin A1c" 0
          [rowBob, rowAlice]).denominator : Rat) * 100)
      else 0) :=
  get_quality_measures_rate_invariant dbSample (measuresList dbSample) (by decide) rfl
    (measureFromAgg "HEDIS-DM-A1C" "Diabetes Care - Hemoglobin A1c" 0 [rowBob, rowAlice])
    (by simp [measuresList, dbSample])

/-- C6: whenever the details endpoint answers 200, the patient details of
the summary are sorted ascending by full name. -/
theorem get_measure_details_sorted (db : DBState) (measure_id : String) (s : MeasureSummary)
    (h : get_measure_details db measure_id = .ok s) :
    s.patient_details.Pairwise (fun a b => a.full_name ≤ b.full_name) := by
  unfold get_measure_details at h
  split at h
  · cases h
  · split at h
    · cases h
    · rename_i rows heq
      injection h with h2
      subst h2
      show ((List.insertionSort nameLe rows).map toPatientMeasure).Pairwise _
      have hs : List.Sorted nameLe (List.insertionSort nameLe rows) :=
        List.sorted_insertionSort nameLe rows
      exact List.Pairwise.map toPatientMeasure (fun a b hab => hab) hs

/-- Storage state holding a single diabetes row. -/
def dbOneRow : DBState :=
  { a1c := some [rowBob], bcs := some [], psi := some [], today := 0 }

/-- Summary returned for the diabetes measure over `dbOneRow`. -/
def summaryOneRow : MeasureSummary :=
  { measure_id := "HEDIS-DM-A1C"
    measure_name := "Diabetes Care - Hemoglobin A1c"
    total_denominator := 1
    total_numerator := 1
    overall_rate := aggRate (sumNum [rowBob]) (sumDen [rowBob])
    patient_details := [toPatientMeasure rowBob] }

/-- C6, witness: the details endpoint answers 200 on `dbOneRow` and the
returned patient details are sorted by full name. -/
theorem get_measure_details_sorted_witness :
    summaryOneRow.patient_details.Pairwise (fun a b => a.full_name ≤ b.full_name) :=
  get_measure_details_sorted dbOneRow "HEDIS-DM-A1C" summaryOneRow rfl

/-- Transport-level view of one storage query: the SQL text sent to the
engine and the bound-parameter map sent alongside it. -/
structure SQLQuery where
  text : String
  params : List (String × String)
deriving DecidableEq, Repr

/-- The diabetes query of the per-patient sweep: the text is a Python
string literal (independent of the caller), and `patient_id` travels
only as the bound parameter `:patient_id`. -/
def a1c_patient_query (patient_id : String) : SQLQuery :=
  { text := "SELECT \x27HEDIS-DM-A1C\x27 as measure_id, \x27Diabetes Care - Hemoglobin A1c\x27 as measure_name, denominator, numerator, most_recent_a1c, most_recent_a1c_date FROM quality_measures.hedis_diabetes_care_hemoglobin_a1c WHERE patient_id = :patient_id"
    params := [("patient_id", patient_id)] }

/-- The screening query of the per-patient sweep. -/
def bcs_patient_query (patient_id : String) : SQLQuery :=
  { text := "SELECT \x27HEDIS-BCS\x27 as measure_id, \x27Breast Cancer Screening\x27 as measure_name, denominator, numerator, last_screening_date, screening_count FROM quality_measures.hedis_breast_cancer_screening WHERE patient_id = :patient_id"
    params := [("patient_id", patient_id)] }

/-- The queries issued by `get_patient_measures`, in order. -/
def patient_sweep_queries (patient_id : String) : List SQLQuery :=
  [a1c_patient_query patient_id, bcs_patient_query patient_id]

/-- Text of the aggregate summary f-string of `get_measure_details`: the
only interpolated fragment is the catalog-selected relation name. -/
def summary_query_text (table_name : String) : String :=
  "SELECT SUM(denominator) as total_denominator, SUM(numerator) as total_numerator, CASE WHEN SUM(denominator) > 0 THEN ROUND((SUM(numerator)::float / SUM(denominator)) * 100, 2) ELSE 0 END as overall_rate FROM " ++ table_name

/-- Text of the patient-details f-string of `get_measure_details`. -/
def details_query_text (table_name : String) : String :=
  "SELECT patient_id, mrn, full_name, age_years, denominator, numerator, measurement_date FROM " ++ table_name ++ " ORDER BY full_name"

/-- The fixed whitelist of backing relation names in the catalog. -/
def catalogTableNames : List String :=
  ["quality_measures.hedis_diabetes_care_hemoglobin_a1c",
   "quality_measures.hedis_breast_cancer_screening",
   "quality_measures.hvbp_patient_safety_indicator"]

/-- Query texts issued by `get_measure_details` for a measure id; `none`
when the id is rejected by the catalog before any query. -/
def measure_details_query_texts (measure_id : String) : Option (List String) :=
  (catalogLookup measure_id).map
    (fun e => [summary_query_text e.1, details_query_text e.1])

/-- C9: the per-patient sweep sends the same query text for every
caller-supplied patient id — the id appears only in the bound-parameter
maps — and every relation name interpolated into the details queries is
drawn from the fixed catalog whitelist, never from caller input. -/
theorem patient_query_text_constant (p1 p2 : String) :
    (patient_sweep_queries p1).map SQLQuery.text =
      (patient_sweep_queries p2).map SQLQuery.text ∧
    (patient_sweep_queries p1).map SQLQuery.params =
      [[("patient_id", p1)], [("patient_id", p1)]] ∧
    ∀ mid qs, measure_details_query_texts mid = some qs →
      ∃ tn ∈ catalogTableNames,
        qs = [summary_query_text tn, details_query_text tn] := by
  refine ⟨rfl, rfl, ?_⟩
  intro mid qs h
  by_cases h1 : mid = "HEDIS-DM-A1C"
  · refine ⟨"quality_measures.hedis_diabetes_care_hemoglobin_a1c",
      by simp [catalogTableNames], ?_⟩
    simp [measure_details_query_texts, catalogLookup, h1] at h
    exact h.symm
  by_cases h2 : mid = "HEDIS-BCS"
  · refine ⟨"quality_measures.hedis_breast_cancer_screening",
      by simp [catalogTableNames], ?_⟩
    simp [measure_details_query_texts, catalogLookup, h1, h2] at h
    exact h.symm
  by_cases h3 : mid = "HVBP-PSI-04"
  · refine ⟨"quality_measures.hvbp_patient_safety_indicator",
      by simp [catalogTableNames], ?_⟩
    simp [measure_details_query_texts, catalogLookup, h1, h2, h3] at h
    exact h.symm
  · simp [measure_details_query_texts, catalogLookup, h1, h2, h3] at h

/-- C9, witness: two distinct patient ids produce identical query texts,
and the details queries for the screening measure use its whitelisted
relation name. -/
theorem patient_query_text_constant_witness :
    (patient_sweep_queries "P1").map SQLQuery.text =
      (patient_sweep_queries "P2").map SQLQuery.text ∧
    ∃ tn ∈ catalogTableNames,
      [summary_query_text "quality_measures.hedis_breast_cancer_screening",
       details_query_text "quality_measures.hedis_breast_cancer_screening"] =
        [summary_query_text tn, details_query_text tn] :=
  ⟨(patient_query_text_constant "P1" "P2").1,
   (patient_query_text_constant "P1" "P2").2.2 "HEDIS-BCS"
     [summary_query_text "quality_measures.hedis_breast_cancer_screening",
      details_query_text "quality_measures.hedis_breast_cancer_screening"] rfl⟩
